import Mathlib

/-!
Verification of the protocol core of the weld `rpc-rs` crate
(`src/rpc-rs/src/lib.rs`): entity addressing and URL derivation,
the `RpcError` taxonomy and its conversions from foreign errors,
and the NATS connection bootstrap.

Rust strings are modelled as lists of characters.  Character-level case
mapping (`char::to_uppercase` / `to_lowercase`) is modelled at ASCII
granularity via `Char.toUpper` / `Char.toLower`; the two mappings agree on
every ASCII character, and no character (ASCII or not) case-maps to `M`
other than `m`/`M` under either mapping, so the addressed properties are
unaffected.
-/

namespace Weld

/-- A Rust `String`, modelled as its sequence of characters. -/
abbrev Str := List Char

/-- Character list of a Lean string literal (used to transcribe the Rust
string literals of the source). -/
def str (s : String) : Str := s.data

/-- Models Rust `str::replace(old, new)` where `old` is a single character
and `new` a single-character string, as in `replace(':', "/")` and
`replace(' ', "_")` of `WasmCloudEntity::url`. -/
def replaceChar (old new : Char) (s : Str) : Str :=
  s.map (fun c => if c = old then new else c)

/-- Models Rust `str::to_lowercase` (ASCII granularity). -/
def toLowercase (s : Str) : Str := s.map Char.toLower

/-- Models Rust `str::to_uppercase` (ASCII granularity). -/
def toUppercase (s : Str) : Str := s.map Char.toUpper

/-- Models Rust `str::starts_with(c)` for a single character pattern. -/
def startsWithChar (c : Char) (s : Str) : Bool :=
  match s with
  | [] => false
  | a :: _ => a = c

/-- The `RpcError` enum of `lib.rs` (lines 278-330): each variant carries a
message `String`, except `NotImplemented`, which is a unit variant. -/
inductive RpcError where
  | DeadlineExceeded (msg : Str)
  | NotInitialized (msg : Str)
  | MethodNotHandled (msg : Str)
  | NotImplemented
  | HostError (msg : Str)
  | Deser (msg : Str)
  | Ser (msg : Str)
  | Rpc (msg : Str)
  | Nats (msg : Str)
  | InvalidParameter (msg : Str)
  | ActorHandler (msg : Str)
  | ProviderInit (msg : Str)
  | Timeout (msg : Str)
  | Other (msg : Str)
deriving DecidableEq, Repr

/-- `pub type RpcResult<T> = std::result::Result<T, RpcError>`. -/
abbrev RpcResult (α : Type) := Except RpcError α

/-- The `WasmCloudEntity` struct: the record constructors in `lib.rs`
(`new_actor`, `new_provider`, `actor_entity`, `provider_entity`) populate
exactly these three string fields. -/
structure WasmCloudEntity where
  public_key : Str
  contract_id : Str
  link_name : Str
deriving DecidableEq, Repr

/-- `LinkDefinition`, restricted to the four fields `lib.rs` reads
(`actor_id`, `provider_id`, `contract_id`, `link_name`); the host-supplied
configuration map is not used by the code under verification. -/
structure LinkDefinition where
  actor_id : Str
  provider_id : Str
  contract_id : Str
  link_name : Str
deriving DecidableEq, Repr

/-- `HostData`, restricted to the two fields `lib.rs` reads
(`host_id`, `lattice_rpc_url`). -/
structure HostData where
  host_id : Str
  lattice_rpc_url : Str
deriving DecidableEq, Repr

/-- `pub const URL_SCHEME: &str = "wasmbus"` (lib.rs line 96). -/
def URL_SCHEME : Str := str "wasmbus"

/-- `WasmCloudEntity::url` (lib.rs lines 175-190). -/
def url (e : WasmCloudEntity) : Str :=
  if startsWithChar 'M' (toUppercase e.public_key) then
    URL_SCHEME ++ str "://" ++ e.public_key
  else
    URL_SCHEME ++ str "://" ++
      toLowercase (replaceChar ' ' '_' (replaceChar ':' '/' e.contract_id)) ++
      str "/" ++
      toLowercase (replaceChar ' ' '_' e.link_name) ++
      str "/" ++
      e.public_key

/-- `WasmCloudEntity::new_actor` (lib.rs lines 124-136). -/
def new_actor (public_key : Str) : RpcResult WasmCloudEntity :=
  if public_key.isEmpty then
    .error (.InvalidParameter (str "public_key may not be empty"))
  else
    .ok { public_key := public_key, contract_id := [], link_name := [] }

/-- `WasmCloudEntity::new_provider` (lib.rs lines 151-172). -/
def new_provider (contract_id link_name : Str) : RpcResult WasmCloudEntity :=
  if contract_id.isEmpty then
    .error (.InvalidParameter (str "contract_id may not be empty"))
  else if link_name.isEmpty then
    .error (.InvalidParameter (str "link_name may not be empty"))
  else
    .ok { public_key := [], contract_id := contract_id, link_name := link_name }

/-- `WasmCloudEntity::is_actor` (lib.rs lines 198-200). -/
def is_actor (e : WasmCloudEntity) : Bool :=
  e.link_name.isEmpty || e.contract_id.isEmpty

/-- `WasmCloudEntity::is_provider` (lib.rs lines 203-205). -/
def is_provider (e : WasmCloudEntity) : Bool :=
  !is_actor e

/-- `LinkDefinition::actor_entity` (lib.rs lines 105-111). -/
def actor_entity (ld : LinkDefinition) : WasmCloudEntity :=
  { public_key := ld.actor_id, contract_id := [], link_name := [] }

/-- `LinkDefinition::provider_entity` (lib.rs lines 113-119). -/
def provider_entity (ld : LinkDefinition) : WasmCloudEntity :=
  { public_key := ld.provider_id
    contract_id := ld.contract_id
    link_name := ld.link_name }

/-- `const DEFAULT_NATS_ADDR: &str = "nats://127.0.0.1:4222"` (lib.rs line 61). -/
def DEFAULT_NATS_ADDR : Str := str "nats://127.0.0.1:4222"

/-- `const TEST_HARNESS: &str = "_TEST_"` (lib.rs line 59). -/
def TEST_HARNESS : Str := str "_TEST_"

/-- `HostData::is_test` (lib.rs lines 65-67). -/
def is_test (hd : HostData) : Bool := hd.host_id = TEST_HARNESS

/-- `HostData::nats_connect` (lib.rs lines 70-90).  The foreign operations
of the `nats_aflowt` crate are abstracted as parameters: `from_str` models
`ServerAddress::from_str` and `connect` models
`Options::default().max_reconnects(None).connect(...)`, each returning
either a success value or the displayed text of its error. -/
def nats_connect {σ ν : Type} (from_str : Str → Except Str σ)
    (connect : σ → Except Str ν) (hd : HostData) : RpcResult ν :=
  let nats_addr : Str :=
    if !hd.lattice_rpc_url.isEmpty then hd.lattice_rpc_url else DEFAULT_NATS_ADDR
  match from_str nats_addr with
  | .error e =>
      .error (.InvalidParameter
        (str "Invalid nats server url '" ++ nats_addr ++ str "': " ++ e))
  | .ok nats_server =>
      match connect nats_server with
      | .error e =>
          .error (.ProviderInit
            (str "nats connection to " ++ nats_addr ++ str " failed: " ++ e))
      | .ok nc => .ok nc

/-- `impl From<String> for RpcError` (lib.rs lines 332-336). -/
def rpcErrorFromString (s : Str) : RpcError := .Other s

/-- `impl From<&str> for RpcError` (lib.rs lines 338-342). -/
def rpcErrorFromStrSlice (s : Str) : RpcError := .Other s

/-- `impl From<std::io::Error> for RpcError` (lib.rs lines 344-348); the
foreign error is abstracted by its displayed text. -/
def rpcErrorFromIoError (e : Str) : RpcError := .Other (str "io: " ++ e)

/-- `impl From<minicbor::encode::Error<std::io::Error>> for RpcError`
(lib.rs lines 350-354). -/
def rpcErrorFromCborEncodeIo (e : Str) : RpcError := .Ser (str "cbor-encode: " ++ e)

/-- `impl From<minicbor::encode::Error<RpcError>> for RpcError`
(lib.rs lines 356-360). -/
def rpcErrorFromCborEncodeRpc (e : Str) : RpcError := .Ser (str "cbor-encode: " ++ e)

/-- `impl From<minicbor::decode::Error> for RpcError`
(lib.rs lines 362-365). -/
def rpcErrorFromCborDecode (e : Str) : RpcError := .Deser (str "cbor-decode: " ++ e)

/-- The kind discriminator of an `RpcError` value (one tag per source
variant). -/
inductive ErrKind where
  | DeadlineExceeded | NotInitialized | MethodNotHandled | NotImplemented
  | HostError | Deser | Ser | Rpc | Nats | InvalidParameter
  | ActorHandler | ProviderInit | Timeout | Other
deriving DecidableEq, Repr

/-- Kind discriminator of an `RpcError` value. -/
def kindOf : RpcError → ErrKind
  | .DeadlineExceeded _ => .DeadlineExceeded
  | .NotInitialized _ => .NotInitialized
  | .MethodNotHandled _ => .MethodNotHandled
  | .NotImplemented => .NotImplemented
  | .HostError _ => .HostError
  | .Deser _ => .Deser
  | .Ser _ => .Ser
  | .Rpc _ => .Rpc
  | .Nats _ => .Nats
  | .InvalidParameter _ => .InvalidParameter
  | .ActorHandler _ => .ActorHandler
  | .ProviderInit _ => .ProviderInit
  | .Timeout _ => .Timeout
  | .Other _ => .Other

/-- The message-string payload carried by an `RpcError` value, when the
variant has one. -/
def payloadMessage : RpcError → Option Str
  | .DeadlineExceeded m => some m
  | .NotInitialized m => some m
  | .MethodNotHandled m => some m
  | .NotImplemented => none
  | .HostError m => some m
  | .Deser m => some m
  | .Ser m => some m
  | .Rpc m => some m
  | .Nats m => some m
  | .InvalidParameter m => some m
  | .ActorHandler m => some m
  | .ProviderInit m => some m
  | .Timeout m => some m
  | .Other m => some m

/-- Whether the result is an `InvalidParameter` failure. -/
def failsInvalidParameter {α : Type} : RpcResult α → Bool
  | .error (.InvalidParameter _) => true
  | _ => false

/-- From the spec's words (§6): the public key "begins with `M`/`m`
(case-insensitive)". -/
def beginsWithMm (s : Str) : Bool :=
  match s with
  | [] => false
  | c :: _ => c = 'M' || c = 'm'

/-- From the spec's words (§6): `normalized_contract_id` replaces `:`→`/`
and ` `→`_` then lower-cases. -/
def normalized_contract_id (s : Str) : Str :=
  toLowercase (replaceChar ' ' '_' (replaceChar ':' '/' s))

/-- From the spec's words (§6): `normalized_link_name` replaces ` `→`_`
then lower-cases. -/
def normalized_link_name (s : Str) : Str :=
  toLowercase (replaceChar ' ' '_' s)

/-- From the spec's words (§4.4): the connection address is
`lattice_rpc_url` if non-empty, else the fixed default. -/
def connectionAddress (hd : HostData) : Str :=
  if hd.lattice_rpc_url.isEmpty then DEFAULT_NATS_ADDR else hd.lattice_rpc_url

/-- Whether an `RpcResult` is a success. -/
def succeeds {α : Type} : RpcResult α → Bool
  | .ok _ => true
  | .error _ => false

lemma char_toNat_ofNat {m : Nat} (h : m.isValidChar) : (Char.ofNat m).toNat = m := by
  unfold Char.ofNat
  rw [dif_pos h]
  rfl

/-- The only characters whose (ASCII) upper-case is `M` are `M` and `m`;
full Unicode case mapping agrees (no other scalar value case-maps to a
string beginning with `M`). -/
lemma toUpper_eq_M_iff (c : Char) : (Char.toUpper c = 'M') ↔ (c = 'M' ∨ c = 'm') := by
  by_cases h : c.toNat ≥ 97 ∧ c.toNat ≤ 122
  · have hup : Char.toUpper c = Char.ofNat (c.toNat - 32) := by
      unfold Char.toUpper
      simp [h]
    rw [hup]
    constructor
    · intro h2
      right
      have h3 : (Char.ofNat (c.toNat - 32)).toNat = ('M' : Char).toNat := by rw [h2]
      have hv : Nat.isValidChar (c.toNat - 32) := Or.inl (by omega)
      rw [char_toNat_ofNat hv] at h3
      have h4 : c.toNat = 109 := by
        have hM : ('M' : Char).toNat = 77 := by decide
        omega
      calc c = Char.ofNat c.toNat := (Char.ofNat_toNat c).symm
        _ = Char.ofNat 109 := by rw [h4]
        _ = 'm' := rfl
    · intro h2
      rcases h2 with h2 | h2
      · subst h2
        exfalso
        revert h
        decide
      · subst h2
        rfl
  · have hup : Char.toUpper c = c := by
      unfold Char.toUpper
      simp [h]
    rw [hup]
    constructor
    · intro h2
      left
      exact h2
    · intro h2
      rcases h2 with h2 | h2
      · exact h2
      · subst h2
        exact absurd (by decide) h

/-- The source's module-key test (`public_key.to_uppercase().starts_with('M')`)
coincides with the spec's "begins with `M`/`m`". -/
lemma startsWith_toUppercase_eq (s : Str) :
    startsWithChar 'M' (toUppercase s) = beginsWithMm s := by
  cases s with
  | nil => rfl
  | cons c cs =>
    show decide (Char.toUpper c = 'M') = (decide (c = 'M') || decide (c = 'm'))
    by_cases h1 : Char.toUpper c = 'M'
    · rcases (toUpper_eq_M_iff c).mp h1 with h | h <;> simp [h1, h]
    · have h2 : c ≠ 'M' := fun hc => h1 ((toUpper_eq_M_iff c).mpr (Or.inl hc))
      have h3 : c ≠ 'm' := fun hc => h1 ((toUpper_eq_M_iff c).mpr (Or.inr hc))
      simp [h1, h2, h3]

/-- `url` on an entity whose public key begins with `M`/`m`. -/
lemma url_of_mKey (e : WasmCloudEntity) (h : beginsWithMm e.public_key = true) :
    url e = str "wasmbus://" ++ e.public_key := by
  unfold url
  rw [startsWith_toUppercase_eq, h]
  simp
  rfl

/-- `url` on an entity whose public key does not begin with `M`/`m`. -/
lemma url_of_not_mKey (e : WasmCloudEntity) (h : beginsWithMm e.public_key = false) :
    url e = str "wasmbus://" ++ normalized_contract_id e.contract_id ++ str "/" ++
      normalized_link_name e.link_name ++ str "/" ++ e.public_key := by
  unfold url
  rw [startsWith_toUppercase_eq, h]
  simp [normalized_contract_id, normalized_link_name]
  rfl

/-- An actor entity and a provider entity over the same module public key. -/
def actorM : WasmCloudEntity :=
  { public_key := str "Mabc123", contract_id := [], link_name := [] }

/-- A provider entity sharing `actorM`'s public key. -/
def providerM : WasmCloudEntity :=
  { public_key := str "Mabc123"
    contract_id := str "wasmcloud:httpserver"
    link_name := str "default" }

/-- C1 (counterexample): the injectivity part of the claim fails.  `actorM`
is an actor entity, `providerM` is a provider entity, they share a public
key, differ (not by any case/space/colon normalization: they differ in
whole fields, one empty and one not), yet `url()` gives both the same
locator string. -/
theorem url_not_injective_counterexample :
    is_actor actorM = true ∧ is_provider providerM = true ∧
    actorM.public_key = providerM.public_key ∧
    actorM ≠ providerM ∧
    url actorM = url providerM := by
  decide

/-- C1 (amended): `url()` is deterministic, but injectivity holds only up
to the module-key collapse: on entities whose public key begins with
`M`/`m`, the locator is the same exactly when the public keys are the same
(so contract_id and link_name are ignored, and an actor and a provider
sharing such a key collide). -/
theorem url_injective_on_mKeys (e1 e2 : WasmCloudEntity)
    (h1 : beginsWithMm e1.public_key = true)
    (h2 : beginsWithMm e2.public_key = true) :
    url e1 = url e2 ↔ e1.public_key = e2.public_key := by
  rw [url_of_mKey e1 h1, url_of_mKey e2 h2]
  constructor
  · exact fun h => (List.append_right_inj _).mp h
  · exact fun h => by rw [h]

/-- Witness for C1 (amended): two concrete entities sharing the module key
`"Mabc123"` — one actor, one provider — receive the same locator. -/
theorem url_injective_on_mKeys_witness :
    url { public_key := str "Mabc123", contract_id := [], link_name := [] } =
      url { public_key := str "Mabc123", contract_id := str "c", link_name := str "l" } :=
  (url_injective_on_mKeys _ _ (by decide) (by decide)).mpr rfl

/-- C2: when the public key begins with `M`/`m`, `url()` is
`wasmbus://<public_key>`; otherwise it is
`wasmbus://<normalized_contract_id>/<normalized_link_name>/<public_key>`
with the spec's `:`→`/`, ` `→`_`, lower-case normalization. -/
theorem url_locator_grammar (e : WasmCloudEntity) :
    (beginsWithMm e.public_key = true →
      url e = str "wasmbus://" ++ e.public_key) ∧
    (beginsWithMm e.public_key = false →
      url e = str "wasmbus://" ++ normalized_contract_id e.contract_id ++ str "/" ++
        normalized_link_name e.link_name ++ str "/" ++ e.public_key) :=
  ⟨url_of_mKey e, url_of_not_mKey e⟩

/-- Witness for C2: the two worked examples of spec §8. -/
theorem url_locator_grammar_witness :
    url { public_key := str "Mabc123", contract_id := [], link_name := [] } =
      str "wasmbus://Mabc123" ∧
    url { public_key := str "xyz", contract_id := str "wasmcloud:httpserver"
          link_name := str "default" } =
      str "wasmbus://wasmcloud/httpserver/default/xyz" := by
  constructor
  · rw [(url_locator_grammar ⟨str "Mabc123", [], []⟩).1 (by decide)]
    decide
  · rw [(url_locator_grammar ⟨str "xyz", str "wasmcloud:httpserver", str "default"⟩).2
      (by decide)]
    decide

/-- C3 (counterexample): not every `RpcError` variant carries a message
payload — `NotImplemented` is a unit variant. -/
theorem rpcError_payload_counterexample :
    payloadMessage RpcError.NotImplemented = none ∧
    ¬ (∀ e : RpcError, (payloadMessage e).isSome = true) :=
  ⟨rfl, fun h => by
    have hni := h RpcError.NotImplemented
    simp [payloadMessage] at hni⟩

/-- C3 (amended): every variant of the taxonomy except `NotImplemented`
carries a human-readable message string as its payload; `NotImplemented`
carries none (its display text `"method not implemented"` is fixed). -/
theorem rpcError_payload_except_notImplemented (e : RpcError)
    (h : e ≠ RpcError.NotImplemented) : (payloadMessage e).isSome = true := by
  cases e <;> first | rfl | exact absurd rfl h

/-- Witness for C3 (amended): the `Rpc` variant carries its message. -/
theorem rpcError_payload_except_notImplemented_witness :
    (payloadMessage (RpcError.Rpc (str "boom"))).isSome = true :=
  rpcError_payload_except_notImplemented (RpcError.Rpc (str "boom")) (by decide)

/-- C4: `new_actor` fails with `InvalidParameter` exactly on the empty key
and succeeds otherwise; `new_provider` fails with `InvalidParameter`
exactly when either argument is empty and succeeds otherwise; in
particular on `""`, `("", "x")` and `("x", "")`. -/
theorem constructors_invalidParameter_iff :
    (∀ k : Str, failsInvalidParameter (new_actor k) = true ↔ k = []) ∧
    (∀ k : Str, succeeds (new_actor k) = true ↔ k ≠ []) ∧
    (∀ c l : Str, failsInvalidParameter (new_provider c l) = true ↔ (c = [] ∨ l = [])) ∧
    (∀ c l : Str, succeeds (new_provider c l) = true ↔ (c ≠ [] ∧ l ≠ [])) ∧
    failsInvalidParameter (new_actor []) = true ∧
    failsInvalidParameter (new_provider [] (str "x")) = true ∧
    failsInvalidParameter (new_provider (str "x") []) = true := by
  refine ⟨?_, ?_, ?_, ?_, rfl, rfl, rfl⟩
  · intro k
    cases k <;> simp [new_actor, failsInvalidParameter]
  · intro k
    cases k <;> simp [new_actor, succeeds]
  · intro c l
    cases c <;> cases l <;> simp [new_provider, failsInvalidParameter]
  · intro c l
    cases c <;> cases l <;> simp [new_provider, succeeds]

/-- C5: an entity built by `new_actor` from a non-empty key is an actor and
not a provider; an entity built by `new_provider` from non-empty arguments
is a provider. -/
theorem new_entities_classification :
    (∀ (k : Str) (e : WasmCloudEntity), k ≠ [] → new_actor k = .ok e →
      is_actor e = true ∧ is_provider e = false) ∧
    (∀ (c l : Str) (e : WasmCloudEntity), c ≠ [] → l ≠ [] →
      new_provider c l = .ok e → is_provider e = true) := by
  constructor
  · intro k e hk heq
    cases k with
    | nil => exact absurd rfl hk
    | cons a as =>
      simp [new_actor] at heq
      subst heq
      exact ⟨rfl, rfl⟩
  · intro c l e hc hl heq
    cases c with
    | nil => exact absurd rfl hc
    | cons a as =>
      cases l with
      | nil => exact absurd rfl hl
      | cons b bs =>
        simp [new_provider] at heq
        subst heq
        rfl

/-- Witness for C5: concrete actor and provider constructions. -/
theorem new_entities_classification_witness :
    is_actor { public_key := str "X", contract_id := [], link_name := [] } = true ∧
    is_provider { public_key := str "X", contract_id := [], link_name := [] } = false ∧
    is_provider { public_key := [], contract_id := str "c", link_name := str "l" } = true :=
  ⟨(new_entities_classification.1 (str "X") _ (by decide) rfl).1,
   (new_entities_classification.1 (str "X") _ (by decide) rfl).2,
   new_entities_classification.2 (str "c") (str "l") _ (by decide) (by decide) rfl⟩

/-- C6: `is_actor` holds exactly when `link_name` or `contract_id` is
empty, `is_provider` is its exact negation, and the two classifications
are mutually exclusive and exhaustive. -/
theorem actor_provider_partition (e : WasmCloudEntity) :
    (is_actor e = true ↔ (e.link_name = [] ∨ e.contract_id = [])) ∧
    is_provider e = !is_actor e ∧
    ((is_actor e = true ∧ is_provider e = false) ∨
      (is_actor e = false ∧ is_provider e = true)) := by
  refine ⟨?_, rfl, ?_⟩
  · simp [is_actor, List.isEmpty_iff]
  · cases h : is_actor e
    · right
      exact ⟨rfl, by simp [is_provider, h]⟩
    · left
      exact ⟨rfl, by simp [is_provider, h]⟩

/-- C7: the `LinkDefinition` projections are total functions; the actor
side is the entity over `actor_id` with empty contract and link (hence an
actor), and the provider side carries `provider_id`, `contract_id` and
`link_name` unchanged. -/
theorem link_definition_entities (ld : LinkDefinition) :
    actor_entity ld =
      { public_key := ld.actor_id, contract_id := [], link_name := [] } ∧
    is_actor (actor_entity ld) = true ∧
    provider_entity ld =
      { public_key := ld.provider_id, contract_id := ld.contract_id
        link_name := ld.link_name } :=
  ⟨rfl, rfl, rfl⟩

/-- The address computed inside `nats_connect` is `connectionAddress`. -/
lemma nats_connect_address (hd : HostData) :
    (if !hd.lattice_rpc_url.isEmpty then hd.lattice_rpc_url else DEFAULT_NATS_ADDR) =
      connectionAddress hd := by
  cases h : hd.lattice_rpc_url.isEmpty <;> simp [connectionAddress, h]

/-- `nats_connect` restated over the resolved connection address. -/
lemma nats_connect_unfold {σ ν : Type} (from_str : Str → Except Str σ)
    (connect : σ → Except Str ν) (hd : HostData) :
    nats_connect from_str connect hd =
      match from_str (connectionAddress hd) with
      | .error e =>
          .error (.InvalidParameter
            (str "Invalid nats server url '" ++ connectionAddress hd ++ str "': " ++ e))
      | .ok s =>
          match connect s with
          | .error e =>
              .error (.ProviderInit
                (str "nats connection to " ++ connectionAddress hd ++ str " failed: " ++ e))
          | .ok nc => .ok nc := by
  unfold nats_connect
  rw [nats_connect_address]

/-- C8: `nats_connect` resolves its address to `lattice_rpc_url` when
non-empty and to the fixed default otherwise; a parse failure of the
resolved address yields `InvalidParameter`, a connect failure yields
`ProviderInit`, and a successful parse and connect yields the connection. -/
theorem nats_connect_resolution_and_errors {σ ν : Type}
    (from_str : Str → Except Str σ) (connect : σ → Except Str ν) (hd : HostData) :
    (hd.lattice_rpc_url ≠ [] → connectionAddress hd = hd.lattice_rpc_url) ∧
    (hd.lattice_rpc_url = [] → connectionAddress hd = DEFAULT_NATS_ADDR) ∧
    (∀ e, from_str (connectionAddress hd) = .error e →
      ∃ m, nats_connect from_str connect hd = .error (.InvalidParameter m)) ∧
    (∀ s e, from_str (connectionAddress hd) = .ok s → connect s = .error e →
      ∃ m, nats_connect from_str connect hd = .error (.ProviderInit m)) ∧
    (∀ s n, from_str (connectionAddress hd) = .ok s → connect s = .ok n →
      nats_connect from_str connect hd = .ok n) := by
  refine ⟨?_, ?_, ?_, ?_, ?_⟩
  · intro h
    simp [connectionAddress, List.isEmpty_iff, h]
  · intro h
    simp [connectionAddress, h]
  · intro e hf
    refine ⟨str "Invalid nats server url '" ++ connectionAddress hd ++ str "': " ++ e, ?_⟩
    rw [nats_connect_unfold, hf]
  · intro s e hf hc
    refine ⟨str "nats connection to " ++ connectionAddress hd ++ str " failed: " ++ e, ?_⟩
    rw [nats_connect_unfold, hf]
    simp [hc]
  · intro s n hf hc
    rw [nats_connect_unfold, hf]
    simp [hc]

/-- Witness for C8: a parser that rejects every address makes
`nats_connect` fail with `InvalidParameter`. -/
theorem nats_connect_resolution_and_errors_witness :
    ∃ m, nats_connect (fun _ : Str => (.error (str "bad") : Except Str Unit))
        (fun _ : Unit => (.ok () : Except Str Unit))
        { host_id := str "h", lattice_rpc_url := str "nats://x" } =
      .error (.InvalidParameter m) :=
  (nats_connect_resolution_and_errors
    (fun _ : Str => (.error (str "bad") : Except Str Unit))
    (fun _ : Unit => (.ok () : Except Str Unit))
    { host_id := str "h", lattice_rpc_url := str "nats://x" }).2.2.1
    (str "bad") rfl

/-- C9: the foreign-error conversions are total functions into `RpcError`
(so nothing crosses the boundary unwrapped), minicbor decode errors map to
`Deser`, both minicbor encode errors map to `Ser`, and `std::io::Error`
and plain strings map to `Other`. -/
theorem foreign_error_conversions (e : Str) :
    kindOf (rpcErrorFromCborDecode e) = ErrKind.Deser ∧
    kindOf (rpcErrorFromCborEncodeIo e) = ErrKind.Ser ∧
    kindOf (rpcErrorFromCborEncodeRpc e) = ErrKind.Ser ∧
    kindOf (rpcErrorFromIoError e) = ErrKind.Other ∧
    kindOf (rpcErrorFromString e) = ErrKind.Other ∧
    kindOf (rpcErrorFromStrSlice e) = ErrKind.Other :=
  ⟨rfl, rfl, rfl, rfl, rfl, rfl⟩

/-- C10: an entity with empty `contract_id` and `link_name` whose public
key does not begin with `M`/`m` gets the locator `wasmbus:////<public_key>`
— empty contract and link path segments, a third locator shape. -/
theorem url_empty_fields_nonM (e : WasmCloudEntity) (hc : e.contract_id = [])
    (hl : e.link_name = []) (hm : beginsWithMm e.public_key = false) :
    url e = str "wasmbus:////" ++ e.public_key := by
  rw [url_of_not_mKey e hm, hc, hl]
  rfl

/-- Witness for C10: the actor entity over `"xyz"` (as built by
`new_actor("xyz")`). -/
theorem url_empty_fields_nonM_witness :
    url { public_key := str "xyz", contract_id := [], link_name := [] } =
      str "wasmbus:////xyz" :=
  url_empty_fields_nonM
    { public_key := str "xyz", contract_id := [], link_name := [] }
    rfl rfl (by decide)

end Weld
